import Mathlib

/-!
Formal model of the pystreng Eurocode 2 chapter 6 shear functions
(`src/pystreng/codes/eurocodes/ec2/ch6/shear.py`):

* `VRdmax` — maximum shear resistance of the concrete compression strut;
* `VRdc`  — concrete shear capacity without shear reinforcement.

Python floats are modelled by real numbers.  Python exceptions
(`ValueError` for the units check, `ZeroDivisionError` for float
division by zero) are modelled by an `Except PyError` result in the
`VRdmaxE` variant; `VRdmaxFull` / `VRdmaxv` model the numeric value
computed on the non-raising path.
-/

namespace Pystreng

/-- Python exception classes that `VRdmax` can raise. -/
inductive PyError where
  | valueError : PyError
  | zeroDivisionError : PyError
deriving DecidableEq

/-- The frozen dataclass `VRdmaxResult`: echoes of the raw inputs plus the
computed outputs, exactly the fields of the Python dataclass
(the presentation-only `to_latex` method is not modelled). -/
structure VRdmaxResult where
  bw : ℝ
  d : ℝ
  fck : ℝ
  fyk : ℝ
  fywk : ℝ
  θ : ℝ
  αcw : ℝ
  γc : ℝ
  units : String
  value : ℝ
  z : ℝ
  fcd : ℝ
  v1 : ℝ
  tanθ : ℝ
  cotθ : ℝ

/-- The body of `VRdmax` after the units validation: unit normalization,
core calculations, and construction of `VRdmaxResult`, line for line from
the source.  Real semantics: `math.tan` is `Real.tan` and division is
total (the raising behaviour is modelled separately in `VRdmaxE`). -/
noncomputable def VRdmaxFull (bw d fck fyk fywk θ αcw γc : ℝ) (units : String) :
    VRdmaxResult :=
  let sL : ℝ := if units = "kN-m-rad" then 1000.0 else 1.0
  let sF : ℝ := if units = "kN-m-rad" then 0.001 else 1.0
  let bw_ := bw * sL
  let d_ := d * sL
  let fck_ := fck * sF
  let fyk_ := fyk * sF
  let fywk_ := fywk * sF
  let z := 0.9 * d_
  let fcd := fck_ / γc
  let v1 : ℝ := if fywk_ < 0.8 * fyk_ then 0.6 else 0.6 * (1 - fck_ / 250.0)
  let tanθ := Real.tan θ
  let cotθ := 1 / Real.tan θ
  let value0 := αcw * bw_ * z * v1 * fcd / (tanθ + cotθ)
  let value := if units = "kN-m-rad" then value0 * 0.001 else value0
  ⟨bw, d, fck, fyk, fywk, θ, αcw, γc, units, value, z, fcd, v1, tanθ, cotθ⟩

/-- The default (`include_intermediates=False`) return of `VRdmax`:
`res.value`. -/
noncomputable def VRdmaxv (bw d fck fyk fywk θ αcw γc : ℝ) (units : String) : ℝ :=
  (VRdmaxFull bw d fck fyk fywk θ αcw γc units).value

/-- `VRdmax` with Python exception semantics: the units check raises
`ValueError`; the divisions `fcd = fck_/γc`, `cotθ = 1 / math.tan(θ)`
and the final division raise `ZeroDivisionError` when their denominator
is zero (Python float division by zero raises), in source order. -/
noncomputable def VRdmaxE (bw d fck fyk fywk θ αcw γc : ℝ) (units : String) :
    Except PyError VRdmaxResult :=
  if ¬(units = "N-mm-rad" ∨ units = "kN-m-rad") then
    Except.error PyError.valueError
  else if γc = 0 then
    Except.error PyError.zeroDivisionError
  else if Real.tan θ = 0 then
    Except.error PyError.zeroDivisionError
  else if Real.tan θ + 1 / Real.tan θ = 0 then
    Except.error PyError.zeroDivisionError
  else
    Except.ok (VRdmaxFull bw d fck fyk fywk θ αcw γc units)

/-- The mapping returned by `VRdc`: exactly the seven keys the Python
function stores in its result dict. -/
structure VRdcResult where
  ρl : ℝ
  k : ℝ
  vmin : ℝ
  k1 : ℝ
  VRdc1 : ℝ
  VRdc2 : ℝ
  value : ℝ

/-- `VRdc`, line for line from the source.  The units conversion happens
only when `units = "kN-m"`; both the `"N-mm"` branch and the final `else`
branch of the Python `if/elif/else` are `pass`, so any other tag leaves
the inputs unchanged.  Python `x ** 0.5`, `x ** 1.5` and
`math.pow(x, 1/3)` are modelled by real `rpow`. -/
noncomputable def VRdc (CRdc Asl fck σcp bw d : ℝ) (units : String) : VRdcResult :=
  let Asl_ := if units = "kN-m" then Asl * 10 ^ 6 else Asl
  let fck_ := if units = "kN-m" then fck * 0.001 else fck
  let σcp_ := if units = "kN-m" then σcp * 0.001 else σcp
  let bw_ := if units = "kN-m" then bw * 1000 else bw
  let d_ := if units = "kN-m" then d * 1000 else d
  let ρl := min (Asl_ / (bw_ * d_)) 0.02
  let k := min (1 + (200.0 / d_) ^ (0.5 : ℝ)) 2.0
  let vmin := 0.035 * k ^ (1.5 : ℝ) * fck_ ^ (0.5 : ℝ)
  let k1 : ℝ := 0.15
  let VRdc1 := (CRdc * k * (100 * ρl * fck_) ^ ((1 : ℝ) / 3) + k1 * σcp_) * bw_ * d_
  let VRdc2 := (vmin + k1 * σcp_) * bw_ * d_
  let value0 := max VRdc1 VRdc2
  let value := if units = "kN-m" then value0 * 0.001 else value0
  ⟨ρl, k, vmin, k1, VRdc1, VRdc2, value⟩

/-- Helper: closed form of the default `VRdmax` return for the default
unit system, read off the source (both scale factors are 1). -/
lemma vrdmaxv_nmm_eq (bw d fck fyk fywk θ αcw γc : ℝ) :
    VRdmaxv bw d fck fyk fywk θ αcw γc "N-mm-rad" =
      αcw * bw * (0.9 * d) *
        (if fywk < 0.8 * fyk then (0.6 : ℝ) else 0.6 * (1 - fck / 250)) *
        (fck / γc) / (Real.tan θ + 1 / Real.tan θ) := by
  simp [VRdmaxv, VRdmaxFull]
  norm_num

/-- Helper: `t + 1/t` never vanishes for nonzero real `t`. -/
lemma tan_add_inv_ne_zero {t : ℝ} (h : t ≠ 0) : t + 1 / t ≠ 0 := by
  intro hc
  have h2 : t * t + 1 = 0 := by field_simp at hc; linarith
  nlinarith [sq_nonneg t]

/-- Helper: Python `x ** 0.5` (real `rpow`) is the real square root. -/
lemma rpow_half_eq_sqrt (x : ℝ) : x ^ (0.5 : ℝ) = Real.sqrt x := by
  rw [show (0.5 : ℝ) = 1 / 2 by norm_num, ← Real.sqrt_eq_rpow]

/-- Helper: the scientific literal `200.0` is the numeral `200`. -/
lemma lit200 : (200.0 : ℝ) = 200 := by norm_num

/-- Helper: the scientific literal `2.0` is the numeral `2`. -/
lemma lit2 : (2.0 : ℝ) = 2 := by norm_num

/-- C1 (counterexample): for bw=250, d=539, fck=20, fyk=500, fywk=500,
θ=π/4 and the default αcw=1, γc=1.5, units "N-mm-rad", `VRdmax` does not
return the 150000.0 of the documented worked example. -/
theorem vrdmax_example_ne_150000 :
    VRdmaxv 250 539 20 500 500 (Real.pi / 4) 1 1.5 "N-mm-rad" ≠ 150000 := by
  rw [vrdmaxv_nmm_eq, Real.tan_pi_div_four]
  norm_num

/-- C1 (amended): on those inputs `VRdmax` returns exactly 446292 newtons
in real arithmetic: fywk < 0.8·fyk is false, so v1 = 0.6·(1 − 20/250) =
0.552, z = 0.9·539 = 485.1, fcd = 20/1.5, tanθ + cotθ = 2, and
1·250·485.1·0.552·(20/1.5)/2 = 446292. -/
theorem vrdmax_example_value :
    VRdmaxv 250 539 20 500 500 (Real.pi / 4) 1 1.5 "N-mm-rad" = 446292 := by
  rw [vrdmaxv_nmm_eq, Real.tan_pi_div_four]
  norm_num

/-- C2 (counterexample): with the recognized default units tag and θ = 0,
the computation does not complete: `math.tan(0)` is exactly 0 and the
float division `cotθ = 1/tan(θ)` raises `ZeroDivisionError` (Python float
division by zero raises; it does not produce infinity). -/
theorem vrdmax_theta_zero_raises :
    VRdmaxE 250 539 20 500 500 0 1 1.5 "N-mm-rad" =
      Except.error PyError.zeroDivisionError := by
  norm_num [VRdmaxE, Real.tan_zero]

/-- C2 (amended): for either recognized units tag and nonzero γc, θ = 0
raises `ZeroDivisionError` from `cotθ = 1/tan(θ)` instead of completing,
while d = 0 does complete without error — and yields value 0, not a
special value, since `VRdmax` never divides by d. -/
theorem vrdmax_degenerate_inputs (bw d fck fyk fywk θ αcw γc : ℝ) (u : String)
    (hu : u = "N-mm-rad" ∨ u = "kN-m-rad") (hγ : γc ≠ 0)
    (hθ : Real.tan θ ≠ 0) :
    VRdmaxE bw d fck fyk fywk 0 αcw γc u =
        Except.error PyError.zeroDivisionError ∧
      ∃ r, VRdmaxE bw 0 fck fyk fywk θ αcw γc u = Except.ok r ∧
        r.value = 0 := by
  have hT : Real.tan θ + (Real.tan θ)⁻¹ ≠ 0 := by
    rw [← one_div]; exact tan_add_inv_ne_zero hθ
  rcases hu with h | h <;> subst h
  · constructor
    · simp [VRdmaxE, hγ, Real.tan_zero]
    · refine ⟨VRdmaxFull bw 0 fck fyk fywk θ αcw γc "N-mm-rad", ?_, ?_⟩
      · simp [VRdmaxE, hγ, hθ, hT]
      · simp [VRdmaxFull]
  · constructor
    · simp [VRdmaxE, hγ, Real.tan_zero]
    · refine ⟨VRdmaxFull bw 0 fck fyk fywk θ αcw γc "kN-m-rad", ?_, ?_⟩
      · simp [VRdmaxE, hγ, hθ, hT]
      · simp [VRdmaxFull]

/-- C3: `VRdc` never validates its units argument: for any tag other than
"N-mm" and "kN-m" both conversion branches of the `if/elif/else` are
`pass`, so the result mapping is exactly the one computed for "N-mm" on
the same numeric inputs. -/
theorem vrdc_units_fallthrough (CRdc Asl fck σcp bw d : ℝ) (u : String)
    (_h1 : u ≠ "N-mm") (h2 : u ≠ "kN-m") :
    VRdc CRdc Asl fck σcp bw d u = VRdc CRdc Asl fck σcp bw d "N-mm" := by
  simp [VRdc, h2]

/-- C4: with units "N-mm-rad" the value returned by `VRdmax` is
αcw·bw·(0.9·d)·v1·(fck/γc)/(tanθ + cotθ), where v1 is 0.6 when
fywk < 0.8·fyk and 0.6·(1 − fck/250) otherwise; there is no further
branch on fck. -/
theorem vrdmax_formula_nmm (bw d fck fyk fywk θ αcw γc : ℝ) :
    VRdmaxv bw d fck fyk fywk θ αcw γc "N-mm-rad" =
      αcw * bw * (0.9 * d) *
        (if fywk < 0.8 * fyk then (0.6 : ℝ) else 0.6 * (1 - fck / 250)) *
        (fck / γc) / (Real.tan θ + 1 / Real.tan θ) :=
  vrdmaxv_nmm_eq bw d fck fyk fywk θ αcw γc

/-- C5: with units "N-mm" the `VRdc` mapping (always a structured result,
never a bare scalar) satisfies ρl = min(Asl/(bw·d), 0.02) (exactly 0.02
when the raw quotient exceeds 0.02), k = min(1 + sqrt(200/d), 2.0)
(exactly 2.0 when the raw expression exceeds 2.0),
vmin = 0.035·k^1.5·sqrt(fck), k1 = 0.15,
VRdc1 = (CRdc·k·(100·ρl·fck)^(1/3) + k1·σcp)·bw·d,
VRdc2 = (vmin + k1·σcp)·bw·d, and value = max(VRdc1, VRdc2). -/
theorem vrdc_nmm_fields (CRdc Asl fck σcp bw d : ℝ) :
    (VRdc CRdc Asl fck σcp bw d "N-mm").ρl = min (Asl / (bw * d)) 0.02 ∧
    (0.02 < Asl / (bw * d) → (VRdc CRdc Asl fck σcp bw d "N-mm").ρl = 0.02) ∧
    (VRdc CRdc Asl fck σcp bw d "N-mm").k = min (1 + Real.sqrt (200 / d)) 2 ∧
    (2 < 1 + Real.sqrt (200 / d) → (VRdc CRdc Asl fck σcp bw d "N-mm").k = 2) ∧
    (VRdc CRdc Asl fck σcp bw d "N-mm").vmin =
      0.035 * (VRdc CRdc Asl fck σcp bw d "N-mm").k ^ (1.5 : ℝ) * Real.sqrt fck ∧
    (VRdc CRdc Asl fck σcp bw d "N-mm").k1 = 0.15 ∧
    (VRdc CRdc Asl fck σcp bw d "N-mm").VRdc1 =
      (CRdc * (VRdc CRdc Asl fck σcp bw d "N-mm").k *
          (100 * (VRdc CRdc Asl fck σcp bw d "N-mm").ρl * fck) ^ ((1 : ℝ) / 3) +
        (VRdc CRdc Asl fck σcp bw d "N-mm").k1 * σcp) * bw * d ∧
    (VRdc CRdc Asl fck σcp bw d "N-mm").VRdc2 =
      ((VRdc CRdc Asl fck σcp bw d "N-mm").vmin +
        (VRdc CRdc Asl fck σcp bw d "N-mm").k1 * σcp) * bw * d ∧
    (VRdc CRdc Asl fck σcp bw d "N-mm").value =
      max (VRdc CRdc Asl fck σcp bw d "N-mm").VRdc1
        (VRdc CRdc Asl fck σcp bw d "N-mm").VRdc2 := by
  refine ⟨?_, ?_, ?_, ?_, ?_, ?_, ?_, ?_, ?_⟩
  · simp [VRdc]
  · intro h
    simp [VRdc]
    exact le_of_lt h
  · show min (1 + (200.0 / d) ^ (0.5 : ℝ)) 2.0 = min (1 + Real.sqrt (200 / d)) 2
    rw [rpow_half_eq_sqrt, lit200, lit2]
  · intro h
    show min (1 + (200.0 / d) ^ (0.5 : ℝ)) 2.0 = 2
    rw [rpow_half_eq_sqrt, lit200, lit2]
    exact min_eq_right (le_of_lt h)
  · show 0.035 * (min (1 + (200.0 / d) ^ (0.5 : ℝ)) 2.0) ^ (1.5 : ℝ) * fck ^ (0.5 : ℝ) =
      0.035 * (VRdc CRdc Asl fck σcp bw d "N-mm").k ^ (1.5 : ℝ) * Real.sqrt fck
    rw [rpow_half_eq_sqrt fck]
    rfl
  · simp [VRdc]
  · simp [VRdc]
  · simp [VRdc]
  · simp [VRdc]

/-- C6: unit round-trip, exact in real arithmetic: the "N-mm-rad" result
equals 1000 times the "kN-m-rad" result on the inputs converted to
kN/m units (lengths divided by 1000, strengths multiplied by 1000). -/
theorem vrdmax_unit_round_trip (bw d fck fyk fywk θ αcw γc : ℝ) :
    VRdmaxv bw d fck fyk fywk θ αcw γc "N-mm-rad" =
      1000 * VRdmaxv (bw / 1000) (d / 1000) (fck * 1000) (fyk * 1000) (fywk * 1000)
        θ αcw γc "kN-m-rad" := by
  simp [VRdmaxv, VRdmaxFull]
  ring_nf

/-- C7: `VRdmax` raises `ValueError` exactly when the units tag is
neither "N-mm-rad" nor "kN-m-rad"; this holds for all numeric inputs
(the check precedes every computation), and with a recognized tag no
`ValueError` is ever raised — units is the only validated input. -/
theorem vrdmax_units_check (bw d fck fyk fywk θ αcw γc : ℝ) (u : String) :
    VRdmaxE bw d fck fyk fywk θ αcw γc u = Except.error PyError.valueError ↔
      ¬(u = "N-mm-rad" ∨ u = "kN-m-rad") := by
  unfold VRdmaxE
  split_ifs with h1 h2 h3 h4 <;> simp_all

/-- C8: with units "kN-m", `VRdc` first converts the inputs into the
internal mm/N working space (Asl·10⁶, fck·0.001, σcp·0.001, bw·1000,
d·1000): every intermediate field of the result equals the corresponding
field of the "N-mm" call on the converted inputs, and only `value` is
converted back by the factor 0.001. -/
theorem vrdc_knm_conversion (CRdc Asl fck σcp bw d : ℝ) :
    (VRdc CRdc Asl fck σcp bw d "kN-m").ρl =
      (VRdc CRdc (Asl * 10 ^ 6) (fck * 0.001) (σcp * 0.001) (bw * 1000) (d * 1000) "N-mm").ρl ∧
    (VRdc CRdc Asl fck σcp bw d "kN-m").k =
      (VRdc CRdc (Asl * 10 ^ 6) (fck * 0.001) (σcp * 0.001) (bw * 1000) (d * 1000) "N-mm").k ∧
    (VRdc CRdc Asl fck σcp bw d "kN-m").vmin =
      (VRdc CRdc (Asl * 10 ^ 6) (fck * 0.001) (σcp * 0.001) (bw * 1000) (d * 1000) "N-mm").vmin ∧
    (VRdc CRdc Asl fck σcp bw d "kN-m").k1 =
      (VRdc CRdc (Asl * 10 ^ 6) (fck * 0.001) (σcp * 0.001) (bw * 1000) (d * 1000) "N-mm").k1 ∧
    (VRdc CRdc Asl fck σcp bw d "kN-m").VRdc1 =
      (VRdc CRdc (Asl * 10 ^ 6) (fck * 0.001) (σcp * 0.001) (bw * 1000) (d * 1000) "N-mm").VRdc1 ∧
    (VRdc CRdc Asl fck σcp bw d "kN-m").VRdc2 =
      (VRdc CRdc (Asl * 10 ^ 6) (fck * 0.001) (σcp * 0.001) (bw * 1000) (d * 1000) "N-mm").VRdc2 ∧
    (VRdc CRdc Asl fck σcp bw d "kN-m").value =
      (VRdc CRdc (Asl * 10 ^ 6) (fck * 0.001) (σcp * 0.001) (bw * 1000) (d * 1000) "N-mm").value
        * 0.001 := by
  refine ⟨?_, ?_, ?_, ?_, ?_, ?_, ?_⟩ <;> simp [VRdc]

/-- C9: for positive bw, d, αcw, γc, an angle strictly between 0 and π/2,
and fywk < 0.8·fyk (so v1 = 0.6), increasing fck strictly increases
fcd = fck/γc and strictly increases the value returned by `VRdmax`. -/
theorem vrdmax_mono_fck (bw d fyk fywk θ αcw γc fck1 fck2 : ℝ)
    (hbw : 0 < bw) (hd : 0 < d) (hα : 0 < αcw) (hγ : 0 < γc)
    (hθ0 : 0 < θ) (hθ1 : θ < Real.pi / 2) (hv : fywk < 0.8 * fyk)
    (hf : fck1 < fck2) :
    fck1 / γc < fck2 / γc ∧
      VRdmaxv bw d fck1 fyk fywk θ αcw γc "N-mm-rad" <
        VRdmaxv bw d fck2 fyk fywk θ αcw γc "N-mm-rad" := by
  have htan : 0 < Real.tan θ := Real.tan_pos_of_pos_of_lt_pi_div_two hθ0 hθ1
  have hT : 0 < Real.tan θ + 1 / Real.tan θ := by positivity
  constructor
  · gcongr
  · rw [vrdmaxv_nmm_eq, vrdmaxv_nmm_eq, if_pos hv, if_pos hv]
    gcongr

/-- C10: with `include_intermediates=True` and units "kN-m-rad" the
returned record echoes every input exactly as passed (in the caller's
unit system), while z and fcd are computed in the internal mm/N space
(z = 0.9·(1000·d), fcd = (0.001·fck)/γc); only `value` is reported in
the caller's unit system, i.e. it is 0.001 times the "N-mm-rad" value of
the converted inputs. -/
theorem vrdmax_intermediates_knm (bw d fck fyk fywk θ αcw γc : ℝ) :
    (VRdmaxFull bw d fck fyk fywk θ αcw γc "kN-m-rad").bw = bw ∧
    (VRdmaxFull bw d fck fyk fywk θ αcw γc "kN-m-rad").d = d ∧
    (VRdmaxFull bw d fck fyk fywk θ αcw γc "kN-m-rad").fck = fck ∧
    (VRdmaxFull bw d fck fyk fywk θ αcw γc "kN-m-rad").fyk = fyk ∧
    (VRdmaxFull bw d fck fyk fywk θ αcw γc "kN-m-rad").fywk = fywk ∧
    (VRdmaxFull bw d fck fyk fywk θ αcw γc "kN-m-rad").θ = θ ∧
    (VRdmaxFull bw d fck fyk fywk θ αcw γc "kN-m-rad").αcw = αcw ∧
    (VRdmaxFull bw d fck fyk fywk θ αcw γc "kN-m-rad").γc = γc ∧
    (VRdmaxFull bw d fck fyk fywk θ αcw γc "kN-m-rad").units = "kN-m-rad" ∧
    (VRdmaxFull bw d fck fyk fywk θ αcw γc "kN-m-rad").z = 0.9 * (1000 * d) ∧
    (VRdmaxFull bw d fck fyk fywk θ αcw γc "kN-m-rad").fcd = 0.001 * fck / γc ∧
    (VRdmaxFull bw d fck fyk fywk θ αcw γc "kN-m-rad").value =
      0.001 * (VRdmaxFull (1000 * bw) (1000 * d) (0.001 * fck) (0.001 * fyk)
        (0.001 * fywk) θ αcw γc "N-mm-rad").value := by
  refine ⟨rfl, rfl, rfl, rfl, rfl, rfl, rfl, rfl, rfl, ?_, ?_, ?_⟩
  · show (0.9 : ℝ) * (d * 1000.0) = 0.9 * (1000 * d)
    ring
  · show fck * 0.001 / γc = 0.001 * fck / γc
    ring
  · simp [VRdmaxFull]
    ring_nf

/-- C3 witness: the theorem applied at the documented example inputs with
the unrecognized tag "bad-unit". -/
theorem vrdc_units_fallthrough_witness :
    VRdc 0.12 308 20 0.66667 250 539 "bad-unit" =
      VRdc 0.12 308 20 0.66667 250 539 "N-mm" :=
  vrdc_units_fallthrough 0.12 308 20 0.66667 250 539 "bad-unit"
    (by decide) (by decide)

/-- C2 witness: the amended theorem applied at the documented example
inputs with the tag "kN-m-rad", γc = 1.5 ≠ 0, and θ = π/4 (whose tangent
is 1 ≠ 0) for the d = 0 part. -/
theorem vrdmax_degenerate_inputs_witness :
    VRdmaxE 250 539 20 500 500 0 1 1.5 "kN-m-rad" =
        Except.error PyError.zeroDivisionError ∧
      ∃ r, VRdmaxE 250 0 20 500 500 (Real.pi / 4) 1 1.5 "kN-m-rad" = Except.ok r ∧
        r.value = 0 :=
  vrdmax_degenerate_inputs 250 539 20 500 500 (Real.pi / 4) 1 1.5 "kN-m-rad"
    (Or.inr rfl) (by norm_num) (by rw [Real.tan_pi_div_four]; norm_num)

/-- C9 witness: the monotonicity theorem applied at bw=250, d=539,
fyk=500, fywk=300, θ=1, αcw=1, γc=1.5, fck going from 20 to 30. -/
theorem vrdmax_mono_fck_witness :
    (20 : ℝ) / 1.5 < 30 / 1.5 ∧
      VRdmaxv 250 539 20 500 300 1 1 1.5 "N-mm-rad" <
        VRdmaxv 250 539 30 500 300 1 1 1.5 "N-mm-rad" :=
  vrdmax_mono_fck 250 539 500 300 1 1 1.5 20 30
    (by norm_num) (by norm_num) (by norm_num) (by norm_num) (by norm_num)
    (by linarith [Real.pi_gt_three]) (by norm_num) (by norm_num)

end Pystreng
